import Mathlib

/-!
Verification of the hala-ai multi-stage pipeline engine.

This file gives a shallow embedding, in Lean 4, of the parts of the
repository that the verified properties concern:

* `app/pipelines/base.py` — the pipeline context, layer result and status,
* `app/pipelines/layer1_sanitization.py` — the sanitization stage,
* `app/pipelines/layer2_semantic.py` — the semantic scope classifier,
* `app/pipelines/layer4_rag.py` — the retrieval stage,
* `app/pipelines/orchestrator.py` — the orchestrator with its
  short-circuit semantics,
* `app/api/v1/endpoints/journey.py` — the hybrid-search routing
  decision, the grounding-text assembly and the error-code → HTTP-status
  mapping.

Conventions of the embedding:

* Python `float` values are modelled as rationals (`ℚ`); nothing verified
  here depends on binary floating-point rounding.
* Python `dict.get(k, default)` on optional fields is modelled by `Option`
  plus `Option.getD`.
* Wall-clock measurements (`time.perf_counter()` differences) are
  nondeterministic inputs; each stage therefore takes its elapsed time as
  an explicit parameter `t : ℚ` and records it exactly where the source
  writes into `context.layer_timings`.
* Calls into external libraries that are not part of the repository
  (the compiled `re` search of the stdlib regex engine, the `langdetect`
  majority vote, the sentence-transformer embedding model, the ChromaDB
  searches, the LLM backend) are modelled as explicit function or data
  parameters; everything computed by repository code is translated
  directly.
-/

namespace HalaAI

/-- `LayerStatus` from `app/pipelines/base.py`: status of a pipeline layer
execution (`passed` / `rejected` / `error`). -/
inductive LayerStatus where
  | passed
  | rejected
  | error
deriving DecidableEq, Repr

/-- A retrieved document, as returned by the vector-store searches.  The
repository treats these as opaque `dict[str, Any]` values; we model them as
string-keyed string dictionaries. -/
abbrev RagDoc := List (String × String)

/-- `PipelineContext` from `app/pipelines/base.py`: the mutable context
object passed through all pipeline layers.  `layer_timings` is a dict in
insertion order, modelled as an association list. -/
structure PipelineContext where
  raw_input : String
  processed_input : String := ""
  user_id : Option String := none
  session_id : Option String := none
  language : String := "id"
  detected_language : Option String := none
  semantic_scores : List (String × ℚ) := []
  detected_scope : Option String := none
  safety_flags : List String := []
  retrieved_documents : List RagDoc := []
  retrieved_verses : List RagDoc := []
  retrieved_hadith : List RagDoc := []
  retrieved_strategies : List RagDoc := []
  llm_response : Option RagDoc := none
  llm_provider_used : Option String := none
  layer_timings : List (String × ℚ) := []
deriving Repr

/-- `PipelineContext.__post_init__`: if `processed_input` is falsy (the
empty string), it is set to `raw_input`. -/
def postInit (c : PipelineContext) : PipelineContext :=
  if c.processed_input = "" then { c with processed_input := c.raw_input } else c

/-- Construction of a `PipelineContext` as done by
`PipelineOrchestrator.execute` (and `_validate_input_full`): only
`raw_input`, `user_id`, `session_id` and `language` are supplied, then
`__post_init__` runs. -/
def mkPipelineContext (raw : String) (uid sid : Option String) (lang : String) :
    PipelineContext :=
  postInit { raw_input := raw, user_id := uid, session_id := sid, language := lang }

/-- `PipelineResult` from `app/pipelines/base.py`.  The wall-clock
`execution_time_ms` field is carried as a rational parameter. -/
structure PipelineResult where
  status : LayerStatus
  layer_name : String
  message : Option String := none
  error_code : Option String := none
  message_id : Option String := none
  message_en : Option String := none
  suggested_action : Option String := none
  execution_time_ms : ℚ := 0
deriving DecidableEq, Repr

/-- `PipelineLayer._create_success_result`. -/
def createSuccessResult (layerName : String) (message : String) (t : ℚ) :
    PipelineResult :=
  { status := .passed, layer_name := layerName, message := some message,
    execution_time_ms := t }

/-- `PipelineLayer._create_rejection_result`. -/
def createRejectionResult (layerName errorCode messageId messageEn : String)
    (suggestedAction : Option String) (t : ℚ) : PipelineResult :=
  { status := .rejected, layer_name := layerName, error_code := some errorCode,
    message_id := some messageId, message_en := some messageEn,
    suggested_action := suggestedAction, execution_time_ms := t }

/-- `PipelineLayer._create_error_result`. -/
def createErrorResult (layerName message : String) (t : ℚ) : PipelineResult :=
  { status := .error, layer_name := layerName, message := some message,
    error_code := some "INTERNAL_ERROR", execution_time_ms := t }

/-! ### Python string helpers used by the layers -/

/-- Python `str.strip()` on a character list: drop whitespace from both
ends. -/
def pyStrip (s : List Char) : List Char :=
  ((s.dropWhile Char.isWhitespace).reverse.dropWhile Char.isWhitespace).reverse

/-- Python `str.split()` with no argument: split on runs of whitespace,
discarding empty pieces. -/
def pySplitWs (s : List Char) : List (List Char) :=
  ((s.splitOnP Char.isWhitespace).filter (fun w => w ≠ []))

/-- Python `str.lower()` on a character list. -/
def pyLower (s : List Char) : List Char :=
  s.map Char.toLower

/-- Whether `pat` occurs as a contiguous sublist of `s` (Python `in` on
strings). -/
def listContains (s pat : List Char) : Bool :=
  (List.range (s.length + 1)).any (fun i => pat.isPrefixOf (s.drop i))

/-- Python `pat in text` substring test on `String`s. -/
def strContains (s pat : String) : Bool :=
  listContains s.toList pat.toList

/-- Python truthiness-based `a or b` on strings: `b` if `a` is empty,
else `a`. -/
def pyOrStr (a b : String) : String :=
  if a = "" then b else a

/-- Python `a or b` where `a, b` are `Optional[str]` and `None` and `""`
are falsy (used by `_build_error_response` for `message_id or message`). -/
def pyOrOpt (a b : Option String) : Option String :=
  match a with
  | some s => if s = "" then b else some s
  | none => b

/-- Python `str.upper()` on a character list. -/
def pyUpper (s : List Char) : List Char :=
  s.map Char.toUpper

/-! ### Layer 1 — `app/pipelines/layer1_sanitization.py` -/

/-- `SanitizationLayer.PROFANITY_WORDS`. -/
def PROFANITY_WORDS : List String :=
  ["fuck", "shit", "bitch", "asshole", "bastard",
   "anjing", "bangsat", "bajingan", "keparat", "kontol", "memek"]

/-- `SanitizationLayer.SUPPORTED_LANGUAGES` (`id` and `en`). -/
def SUPPORTED_LANGUAGES : List String := ["id", "en"]

/-- `common_words_en` from `SanitizationLayer._is_random_string`. -/
def commonWordsEn : List String :=
  ["the", "a", "an", "and", "or", "is", "are", "was", "were", "be",
   "i", "you", "he", "she", "it", "we", "they", "what", "which", "who",
   "how", "where", "when", "why", "can", "will", "do", "does", "did",
   "have", "has", "should", "would", "could", "my", "your", "his",
   "her", "our", "their", "want", "need", "help", "make", "think",
   "about", "for", "to", "of", "in", "on", "at", "by", "with"]

/-- `common_words_id` from `SanitizationLayer._is_random_string` (the
source set literal lists `ingin` twice; as a set it is kept once). -/
def commonWordsId : List String :=
  ["saya", "aku", "anda", "dia", "kami", "mereka", "adalah", "ada",
   "yang", "untuk", "dengan", "dari", "ke", "pada", "di", "dan",
   "atau", "tidak", "ya", "sholat", "tahajud", "belajar", "ingin",
   "meningkatkan", "kebiasaan", "doa", "salat", "ibadah", "quran",
   "diri", "hidup", "apa", "berapa", "kapan", "dimana", "bagaimana",
   "siapa", "mengapa", "bisa", "dapat", "perlu", "harus"]

/-- `indonesian_indicators` from `SanitizationLayer._detect_language`. -/
def indonesianIndicators : List String :=
  ["saya", "aku", "anda", "dia", "kami", "mereka", "adalah", "ada",
   "yang", "untuk", "dengan", "dari", "ke", "pada", "di", "dan",
   "atau", "tidak", "ya", "sholat", "salat", "tahajud", "belajar",
   "ingin", "meningkatkan", "kebiasaan", "doa", "ibadah", "quran",
   "diri", "hidup", "bagaimana", "mengapa", "bisa", "dapat", "perlu",
   "harus", "amalan", "supaya", "rezeki", "lancar", "berkah", "agar",
   "semoga", "insyallah", "alhamdulillah", "subhanallah", "masya allah"]

/-- `english_indicators` from `SanitizationLayer._detect_language`. -/
def englishIndicators : List String :=
  ["the", "a", "an", "and", "or", "is", "are", "was", "were", "be",
   "i", "you", "he", "she", "it", "we", "they", "what", "which", "who",
   "how", "where", "when", "why", "can", "will", "do", "does", "did",
   "have", "has", "should", "would", "could", "want", "need", "help",
   "prayer", "spiritual", "improve", "daily", "habits", "life"]

/-- Parameters of a `SanitizationLayer` instance.  `minLength` and
`maxLength` come from settings (`min_input_length = 10`,
`max_input_length = 500` by default).  `injectionSearch` models
`self._injection_regex.search(text) is not None` — the compiled stdlib
regex over `INJECTION_PATTERNS`, an external engine.  `langdetectVote`
models the five-attempt `langdetect` majority vote at the end of
`_detect_language` (returning `none` when detection fails or no majority
is reached); `langdetect` is an external library. -/
structure SanitizeParams where
  minLength : Nat := 10
  maxLength : Nat := 500
  injectionSearch : List Char → Bool
  langdetectVote : List Char → Option String

/-- `SanitizationLayer._detect_language`: keep alphabetic and whitespace
characters, require at least 3 stripped characters, look for Indonesian
then English indicator words among the lowered whitespace-split words, and
otherwise fall back to the `langdetect` majority vote. -/
def detectLanguage (p : SanitizeParams) (text : List Char) : Option String :=
  let cleanText := text.filter (fun c => c.isAlpha || c.isWhitespace)
  if (pyStrip cleanText).length < 3 then none
  else
    let words := (pySplitWs cleanText).map pyLower
    if indonesianIndicators.any (fun w => words.contains w.toList) then some "id"
    else if englishIndicators.any (fun w => words.contains w.toList) then some "en"
    else p.langdetectVote cleanText

/-- `SanitizationLayer._is_random_string`: gibberish heuristics — no
recognized common word among two or more words, too many repeated
character pairs, or a majority of unrecognized 1–2 character words.
The float divisions of the source are modelled as exact rationals. -/
def isRandomString (text : List Char) : Bool :=
  let textLower := pyLower text
  let words := pySplitWs text
  if words = [] then true
  else
    let allWords := (words.map (fun w => (pyLower w).filter Char.isAlpha)).dedup
    let recognizedCount :=
      (commonWordsEn.filter (fun w => allWords.contains w.toList)).length +
      (commonWordsId.filter (fun w => allWords.contains w.toList)).length
    if words.length ≥ 2 ∧ recognizedCount = 0 then true
    else
      let alphaOnly := textLower.filter Char.isAlpha
      let pairCheck :=
        if alphaOnly.length ≥ 4 then
          let pairRepeats :=
            ((List.range (alphaOnly.length - 3)).filter (fun i =>
              (alphaOnly.drop i).take 2 = (alphaOnly.drop (i + 2)).take 2)).length
          ((pairRepeats : ℚ) > (alphaOnly.length : ℚ) / 10)
        else false
      if pairCheck then true
      else
        let shortWords := (words.filter (fun w => w.length ≤ 2)).length
        if words.length ≥ 3 ∧ ((shortWords : ℚ) / (words.length : ℚ) > 1/2) then
          let recognizedShort := (allWords.filter (fun w =>
            w.length ≤ 2 ∧ (commonWordsEn.contains ⟨w⟩ ∨ commonWordsId.contains ⟨w⟩))).length
          recognizedShort < shortWords
        else false

/-- `SanitizationLayer._clean_text`: collapse whitespace runs to single
spaces and strip the ends. -/
def cleanText (text : List Char) : List Char :=
  ((pySplitWs text).intersperse [' ']).flatten

/-- Characters matched by `\w` in the profanity word extraction
`re.findall(r'\b\w+\b', text.lower())`. -/
def isWordChar (c : Char) : Bool :=
  c.isAlphanum || c = '_'

/-- `re.findall(r'\b\w+\b', s)`: the maximal runs of word characters. -/
def findallWords (s : List Char) : List (List Char) :=
  ((s.splitOnP (fun c => !isWordChar c)).filter (fun w => w ≠ []))

/-- The `supported_list` string built in the unsupported-language branch:
`", ".join(language_names.get(lang, ...) for lang in SUPPORTED_LANGUAGES)`.
The source iterates a Python set literal; we fix the declared order
`id, en`. -/
def supportedList : String := "Indonesian, English"

/-- `SanitizationLayer.process`: strip, length bounds, language detection
and support check, store the detected language on the context, gibberish
check, injection check, profanity check, then clean the text, store it in
`processed_input` and record the layer timing.  `t` is the measured
elapsed time in milliseconds. -/
def sanitizationProcess (p : SanitizeParams) (ctx : PipelineContext) (t : ℚ) :
    PipelineResult × PipelineContext :=
  let text := pyStrip ctx.raw_input.toList
  if text.length < p.minLength then
    (createRejectionResult "sanitization" "VALIDATION_ERROR"
      ("Input terlalu pendek. Minimal " ++ toString p.minLength ++ " karakter.")
      ("Input too short. Minimum " ++ toString p.minLength ++ " characters required.")
      (some "Please provide more details about your question.") t, ctx)
  else if text.length > p.maxLength then
    (createRejectionResult "sanitization" "VALIDATION_ERROR"
      ("Input terlalu panjang. Maksimal " ++ toString p.maxLength ++ " karakter.")
      ("Input too long. Maximum " ++ toString p.maxLength ++ " characters allowed.")
      (some "Please shorten your question to be more concise.") t, ctx)
  else
    let detectedLang := detectLanguage p text
    if detectedLang.isSome ∧ ¬ SUPPORTED_LANGUAGES.contains (detectedLang.getD "") then
      (createRejectionResult "sanitization" "LANGUAGE_NOT_SUPPORTED"
        ("Bahasa yang terdeteksi (" ++ String.mk (pyUpper (detectedLang.getD "").toList) ++
          ") tidak didukung. Saat ini kami hanya mendukung: " ++ supportedList ++ ".")
        ("Detected language (" ++ String.mk (pyUpper (detectedLang.getD "").toList) ++
          ") is not supported. Currently we only support: " ++ supportedList ++ ".")
        (some ("Please rephrase your question in " ++ supportedList ++ ".")) t, ctx)
    else
      let ctx1 := { ctx with detected_language := some (detectedLang.getD ctx.language) }
      if detectedLang = none ∧ isRandomString text then
        (createRejectionResult "sanitization" "VALIDATION_ERROR"
          "Input mengandung teks acak atau tidak bermakna. Silakan berikan pertanyaan yang jelas dan bermakna."
          "Input contains random or meaningless text. Please provide a clear and meaningful question."
          (some "Rephrase your question with real words and meaningful content.") t, ctx1)
      else if p.injectionSearch text then
        (createRejectionResult "sanitization" "INJECTION_DETECTED"
          "Terdeteksi pola input yang tidak diizinkan."
          "Disallowed input pattern detected."
          (some "Please provide a genuine question without special instructions.") t, ctx1)
      else
        let words := (findallWords (pyLower text)).dedup
        if PROFANITY_WORDS.any (fun w => words.contains w.toList) then
          (createRejectionResult "sanitization" "VALIDATION_ERROR"
            "Input mengandung kata-kata yang tidak pantas."
            "Input contains inappropriate language."
            (some "Please rephrase your question using appropriate language.") t, ctx1)
        else
          let ctx2 := { ctx1 with
            processed_input := String.mk (cleanText text),
            layer_timings := ctx1.layer_timings ++ [("sanitization", t)] }
          (createSuccessResult "sanitization" "Input sanitization passed" t, ctx2)

/-! ### Layer 2 — `app/pipelines/layer2_semantic.py` -/

/-- `Settings.semantic_similarity_threshold` default from
`app/core/config.py` (`0.45`). -/
def semanticSimilarityThreshold : ℚ := 45/100

/-- The `scope_names` list of `SemanticValidationLayer.process`. -/
def scopeNames : List String :=
  ["worship", "mental_health", "productivity", "marriage_family",
   "character_building", "spiritual_growth"]

/-- `PLATFORM_KEYWORDS` from `app/pipelines/layer2_semantic.py`
(category → keyword list; duplicate entries of the source lists are
kept as written). -/
def PLATFORM_KEYWORDS : List (String × List String) :=
  [("islamic",
    ["sholat", "doa", "ibadah", "quran", "tilawah", "zikir", "dhikr",
     "tahajjud", "dhuha", "sunnah", "islam", "muslim", "allah", "niat",
     "ikhlas", "taubat", "hijrah", "iman", "tawakkal", "dosa", "maksiat",
     "halal", "haram", "sholeh", "sholehah", "taaruf", "nikah",
     "pernikahan", "jodoh", "akhlaq", "akhlak", "adab", "istighfar",
     "forgiveness", "prayer", "worship", "spiritual", "faith", "quran",
     "prophet", "sunnah", "ramadan", "fasting", "hajj"]),
   ("mental_health",
    ["cemas", "gelisah", "khawatir", "worry", "anxiety", "stress",
     "sedih", "sad", "depression", "depresi", "trauma", "duka",
     "berduka", "grief", "heartbroken", "hancur", "terpuruk",
     "kehilangan", "meninggal", "wafat", "kesepian", "loneliness",
     "curhat", "burnout", "overthinking", "ketenangan", "peace",
     "inner", "healing", "sembuh", "batin", "jiwa"]),
   ("productivity",
    ["produktif", "produktivitas", "sukses", "successful", "kaya",
     "wealthy", "rezeki", "wealth", "bisnis", "business", "karir",
     "career", "kerja", "work", "entrepreneur", "waktu", "time",
     "fokus", "focus", "disiplin", "discipline", "kebiasaan", "habit",
     "tujuan", "goal", "efficient", "procrastination", "menunda"]),
   ("relationships",
    ["nikah", "menikah", "marriage", "jodoh", "pasangan", "spouse",
     "suami", "istri", "husband", "wife", "keluarga", "family",
     "orang tua", "parents", "anak", "children", "hubungan",
     "relationship", "taaruf", "keharmonisan", "harmony", "anak",
     "parenting"]),
   ("character",
    ["akhlaq", "akhlak", "karakter", "character", "diri", "self",
     "pertumbuhan", "growth", "pengembangan", "development",
     "perbaikan", "improvement", "sabar", "patience", "syukur",
     "gratitude", "rendah hati", "humble", "jujur", "honest", "ikhlas",
     "sincere", "amanah", "integrity", "identitas", "identity"]),
   ("recovery",
    ["taubat", "repentance", "hijrah", "berhenti", "stop", "kecanduan",
     "addiction", "maksiat", "sin", "dosa", "kebiasaan buruk",
     "bad habits", "memperbaiki", "improve", "kembali", "return",
     "jalan yang benar", "right path", "iman", "faith"])]

/-- `SemanticValidationLayer._check_keyword_relevance`: count the
categories of `PLATFORM_KEYWORDS` that have at least one keyword occurring
as a substring of the lowered text (the source breaks out of the inner
loop after the first keyword of a category), and require at least one. -/
def checkKeywordRelevance (text : String) : Bool :=
  let textLower := String.mk (pyLower text.toList)
  let keywordsFound := (PLATFORM_KEYWORDS.filter (fun cat =>
    cat.2.any (fun k => strContains textLower (String.mk (pyLower k.toList))))).length
  keywordsFound ≥ 1

/-- The best-scope selection loop of `SemanticValidationLayer.process`:
`max_similarity` starts at `0.0`, `best_scope_index` at `-1`, and an index
is selected only on a strict improvement (`similarity > max_similarity`).
`i` is the index of the head of the remaining list. -/
def selectLoop : List ℚ → Nat → ℚ × Int → ℚ × Int
  | [], _, acc => acc
  | s :: rest, i, acc =>
      selectLoop rest (i + 1) (if s > acc.1 then (s, (i : Int)) else acc)

/-- The `(max_similarity, best_scope_index)` pair computed by
`SemanticValidationLayer.process` from the similarity of the input
embedding to each cached scope embedding, in descriptor-list order. -/
def selectBestScope (sims : List ℚ) : ℚ × Int :=
  selectLoop sims 0 (0, -1)

/-- `k` is the position of the first maximum of `sims`: the value at `k`
is `m`, every earlier entry is strictly below `m`, and no entry exceeds
`m`. -/
def IsFirstMax (sims : List ℚ) (m : ℚ) (k : Nat) : Prop :=
  k < sims.length ∧ sims[k]? = some m ∧
    (∀ j < k, ∀ s, sims[j]? = some s → s < m) ∧
    (∀ s ∈ sims, s ≤ m)

/-- Python list indexing `l[i]`, including the negative-index convention:
`l[-k]` is `l[len l - k]`.  Out-of-range access (an `IndexError` in
Python) is `none`. -/
def pyIndex (l : List String) (i : Int) : Option String :=
  if 0 ≤ i then l[i.toNat]?
  else if (-i).toNat ≤ l.length then l[l.length - (-i).toNat]? else none

/-- `SemanticValidationLayer.process` (initialized-service path when
`serviceInit` is `true`).  External inputs: `sims` is the list of cosine
similarities `_cosine_similarity(input_embedding, e)` for the cached
scope embeddings `e` in order (the embeddings come from the external
sentence-transformer model), `t` the measured elapsed milliseconds.
Formatting of the score inside the success message string is elided. -/
def semanticProcess (serviceInit : Bool) (threshold : ℚ) (sims : List ℚ)
    (ctx : PipelineContext) (t : ℚ) : PipelineResult × PipelineContext :=
  if !serviceInit then
    (createErrorResult "semantic_validation" "Embedding service not initialized" t, ctx)
  else
    let ms := selectBestScope sims
    let scoreName := (pyIndex scopeNames ms.2).getD ""
    let ctx1 := { ctx with semantic_scores := [(scoreName, ms.1)] }
    let ctx2 := { ctx1 with
      layer_timings := ctx1.layer_timings ++ [("semantic_validation", t)] }
    if ms.1 < threshold then
      (createRejectionResult "semantic_validation" "OUT_OF_SCOPE"
        "Maaf, permintaanmu berada di luar jangkauan bimbingan Hala Journal."
        "Sorry, your request is outside the scope of Hala Journal guidance."
        (some "Try asking about spiritual habits, worship, mental health, or productivity.")
        t, ctx2)
    else if ms.1 < 1/2 ∧ ¬ checkKeywordRelevance ctx.processed_input then
      (createRejectionResult "semantic_validation" "OUT_OF_SCOPE"
        "Maaf, permintaanmu berada di luar jangkauan bimbingan Hala Journal."
        "Sorry, your request is outside the scope of Hala Journal guidance."
        (some "Try asking about spiritual habits, worship, mental health, or productivity.")
        t, ctx2)
    else
      let ctx3 := { ctx2 with
        detected_scope := some (if 0 ≤ ms.2 then scoreName else "general") }
      (createSuccessResult "semantic_validation"
        ("Input matched scope " ++ scoreName ++ " with the recorded score") t, ctx3)

/-! ### Layer 4 — `app/pipelines/layer4_rag.py` -/

/-- `RAGRetrievalLayer.process`.  `storeInit` / `embInit` model whether
`self._vector_store` / `self._embedding_service` are set; `verses`,
`hadith` and `strategies` are the results of the three vector-store
searches (`quran_verses`, `hadith`, `hala_strategies`) — the store is an
external collaborator, so its answers are parameters.  The combined
document list is their concatenation in that order; an empty combination
is rejected with `RAG_FAILURE`, a non-empty one passes. -/
def ragProcess (storeInit embInit : Bool)
    (verses hadith strategies : List RagDoc)
    (ctx : PipelineContext) (t : ℚ) : PipelineResult × PipelineContext :=
  if !storeInit then
    (createErrorResult "rag_retrieval" "Vector store not initialized" t, ctx)
  else if !embInit then
    (createErrorResult "rag_retrieval" "Embedding service not initialized" t, ctx)
  else
    let ctx1 := { ctx with
      retrieved_verses := verses,
      retrieved_hadith := hadith,
      retrieved_strategies := strategies,
      retrieved_documents := verses ++ hadith ++ strategies,
      layer_timings := ctx.layer_timings ++ [("rag_retrieval", t)] }
    if ctx1.retrieved_documents = [] then
      (createRejectionResult "rag_retrieval" "RAG_FAILURE"
        "Tidak dapat menemukan konteks yang relevan untuk permintaanmu."
        "Could not find relevant context for your request."
        (some "Please try rephrasing your question.") t, ctx1)
    else
      (createSuccessResult "rag_retrieval"
        ("Retrieved " ++ toString ctx1.retrieved_documents.length ++ " relevant documents")
        t, ctx1)

/-! ### Journey endpoint — `app/api/v1/endpoints/journey.py` -/

/-- `TEMPLATE_HIGH_SIMILARITY_THRESHOLD` (`0.85`). -/
def TEMPLATE_HIGH_SIMILARITY_THRESHOLD : ℚ := 85/100

/-- `KNOWLEDGE_RELEVANCE_THRESHOLD` (`0.7`). -/
def KNOWLEDGE_RELEVANCE_THRESHOLD : ℚ := 7/10

/-- `_get_status_code`: the error-code → HTTP-status mapping, with `500`
as the default for codes absent from the dictionary. -/
def getStatusCode (errorCode : Option String) : Nat :=
  match errorCode with
  | some "INJECTION_DETECTED" => 400
  | some "VALIDATION_ERROR" => 400
  | some "OUT_OF_SCOPE" => 400
  | some "SAFETY_VIOLATION" => 422
  | some "RAG_FAILURE" => 500
  | some "LLM_FAILURE" => 500
  | some "PROVIDER_NOT_FOUND" => 500
  | some "INTERNAL_ERROR" => 500
  | _ => 500

/-- The `document` dict of a search hit, with the fields read by
`_format_references_for_prompt` (each `doc.get(key, "")` is modelled by
an `Option` field read with `getD`). -/
structure RefDoc where
  category : Option String := none
  content : Option String := none
  title : Option String := none
  source : Option String := none
  content_ar : Option String := none
deriving DecidableEq, Repr

/-- One hit of a ChromaDB search as consumed by the journey endpoint:
`ref.get("document", {})`, `ref.get("distance", 1.0)` and
`ref.get("metadata", {}).get("language", "id")`. -/
structure SearchHit where
  document : RefDoc := {}
  distance : Option ℚ := none
  language : Option String := none
deriving DecidableEq, Repr

/-- The lines contributed by one knowledge reference in the loop of
`_format_references_for_prompt`: references with
`distance > KNOWLEDGE_RELEVANCE_THRESHOLD` are skipped, the rest are
formatted by category (verse/hadith add an Arabic line when
`content_ar` is non-empty; unknown categories contribute nothing). -/
def formatRefLines (ref : SearchHit) : List String :=
  let doc := ref.document
  let distance := ref.distance.getD 1
  if distance > KNOWLEDGE_RELEVANCE_THRESHOLD then []
  else
    let category := doc.category.getD "UNKNOWN"
    let content := doc.content.getD ""
    let title := doc.title.getD ""
    let source := doc.source.getD ""
    let contentAr := doc.content_ar.getD ""
    if category = "VERSE" then
      ["- Verse (" ++ source ++ "): " ++ pyOrStr title content] ++
        (if contentAr ≠ "" then ["  Arabic: " ++ contentAr] else [])
    else if category = "HADITH" then
      ["- Hadith (" ++ source ++ "): " ++ pyOrStr title content] ++
        (if contentAr ≠ "" then ["  Arabic: " ++ contentAr] else [])
    else if category = "DOA" then
      ["- Doa: " ++ pyOrStr title content]
    else if category = "STRATEGY" then
      ["- Strategy: " ++ pyOrStr title content]
    else if category = "STORY" then
      ["- Story/Wisdom: " ++ pyOrStr title content]
    else []

/-- The story-fallback loop at the end of `_format_references_for_prompt`:
scan the story-only search results and emit one `- Story/Wisdom:` line for
the first hit whose title or content is non-empty. -/
def storyFallbackLines : List SearchHit → List String
  | [] => []
  | s :: rest =>
      let title := s.document.title.getD ""
      let content := s.document.content.getD ""
      if title ≠ "" ∨ content ≠ "" then ["- Story/Wisdom: " ++ pyOrStr title content]
      else storyFallbackLines rest

/-- The full `references` list assembled by
`_format_references_for_prompt` from the hybrid-search result set: the
per-reference lines of the knowledge references, then — when no line so
far contains the substring `"Story/Wisdom"` — the story-fallback line. -/
def formatReferenceLines (knowledgeRefs stories : List SearchHit) : List String :=
  let references := knowledgeRefs.flatMap formatRefLines
  let storyAdded := references.any (fun r => strContains r "Story/Wisdom")
  if storyAdded then references else references ++ storyFallbackLines stories

/-- `_format_references_for_prompt`: the assembled grounding text —
the joined reference lines, or the fixed fallback sentence when the list
is empty. -/
def formatReferencesForPrompt (knowledgeRefs stories : List SearchHit) : String :=
  let references := formatReferenceLines knowledgeRefs stories
  if references ≠ [] then String.intercalate "\n" references
  else "(No specific references found - use your knowledge as an Islamic life coach)"

/-- The template routing decision of `generate_journey` (step 3): from
the templates of the hybrid search and the detected language, compute
`(best_template, template_similarity)`.  Only the first (best) template
hit is examined; its similarity is `1 − distance`, and it is used only if
that similarity reaches `TEMPLATE_HIGH_SIMILARITY_THRESHOLD` and its
metadata language tag equals the detected language. -/
def templateRoute (templates : List SearchHit) (detectedLanguage : String) :
    Option SearchHit × ℚ :=
  match templates with
  | [] => (none, 0)
  | best :: _ =>
      let distance := best.distance.getD 1
      let similarity := 1 - distance
      let templateLanguage := best.language.getD "id"
      if similarity ≥ TEMPLATE_HIGH_SIMILARITY_THRESHOLD then
        if templateLanguage = detectedLanguage then (some best, similarity)
        else (none, similarity)
      else (none, similarity)

/-! ### Orchestrator — `app/pipelines/orchestrator.py` -/

/-- A registered pipeline layer as seen by the orchestrator: its
`layer_name` and `layer_order` properties and its `process` coroutine.
`process` returns the layer result and the updated context; the third
component instruments the number of requests the invocation issues to
external collaborators (vector store, embedding model, LLM backend),
which the orchestrator itself never issues. -/
structure PLayer where
  layer_name : String
  layer_order : Int
  process : PipelineContext → PipelineResult × PipelineContext × Nat

/-- `sorted(self._layers, key=lambda l: l.layer_order)`: Python's stable
ascending sort, modelled by a stable insertion sort on `layer_order`. -/
def sortLayers (layers : List PLayer) : List PLayer :=
  List.insertionSort (fun a b => a.layer_order ≤ b.layer_order) layers

/-- The error envelope built by
`PipelineOrchestrator._build_error_response`.  The wall-clock
`total_time_ms` field is nondeterministic and omitted. -/
structure ErrorEnvelope where
  code : String
  message_id : Option String
  message_en : Option String
  suggested_action : Option String
  failed_at_layer : String
  layer_timings : List (String × ℚ)
deriving DecidableEq, Repr

/-- The success envelope built by
`PipelineOrchestrator._build_success_response` (again without the
wall-clock `total_time_ms`). -/
structure SuccessEnvelope where
  data : Option RagDoc
  detected_scope : Option String
  semantic_scores : List (String × ℚ)
  documents_retrieved : Nat
  llm_provider : Option String
  layer_timings : List (String × ℚ)
deriving DecidableEq, Repr

/-- The orchestrator's return value: an error envelope or a success
envelope. -/
inductive OrchResponse where
  | errorResp (e : ErrorEnvelope)
  | successResp (s : SuccessEnvelope)
deriving DecidableEq, Repr

/-- `PipelineOrchestrator._build_error_response`. -/
def buildErrorResponse (result : PipelineResult) (ctx : PipelineContext) :
    ErrorEnvelope :=
  { code :=
      match result.error_code with
      | some s => if s = "" then "INTERNAL_ERROR" else s
      | none => "INTERNAL_ERROR",
    message_id := pyOrOpt result.message_id result.message,
    message_en := pyOrOpt result.message_en result.message,
    suggested_action := result.suggested_action,
    failed_at_layer := result.layer_name,
    layer_timings := ctx.layer_timings }

/-- `PipelineOrchestrator._build_success_response`. -/
def buildSuccessResponse (ctx : PipelineContext) : SuccessEnvelope :=
  { data := ctx.llm_response,
    detected_scope := ctx.detected_scope,
    semantic_scores := ctx.semantic_scores,
    documents_retrieved := ctx.retrieved_documents.length,
    llm_provider := ctx.llm_provider_used,
    layer_timings := ctx.layer_timings }

/-- The execution loop of `PipelineOrchestrator.execute` over the sorted
layer list: run each layer in turn, short-circuiting into the error
envelope when a result's status is `REJECTED` or `ERROR`.  Besides the
response it returns the invocation trace — for each layer whose `process`
was actually invoked, in execution order, its name and the number of
collaborator requests that invocation issued.  (The optional monitoring
callbacks are observation-only and not modelled.) -/
def runLayers : List PLayer → PipelineContext → OrchResponse × List (String × Nat)
  | [], ctx => (.successResp (buildSuccessResponse ctx), [])
  | l :: rest, ctx =>
      let out := l.process ctx
      if out.1.status = .rejected ∨ out.1.status = .error then
        (.errorResp (buildErrorResponse out.1 out.2.1), [(l.layer_name, out.2.2)])
      else
        let tail := runLayers rest out.2.1
        (tail.1, (l.layer_name, out.2.2) :: tail.2)

/-- `PipelineOrchestrator.execute`: build the context from the inputs and
run the layers sorted by declared order. -/
def executeOrchestrator (layers : List PLayer) (raw : String)
    (uid sid : Option String) (lang : String) :
    OrchResponse × List (String × Nat) :=
  runLayers (sortLayers layers) (mkPipelineContext raw uid sid lang)

/-- Run a prefix of the layer list, returning the context after all of
them when every one passes, and `none` as soon as one rejects or
errors. -/
def runPrefix : List PLayer → PipelineContext → Option PipelineContext
  | [], ctx => some ctx
  | l :: rest, ctx =>
      let out := l.process ctx
      if out.1.status = .rejected ∨ out.1.status = .error then none
      else runPrefix rest out.2.1

/-- Total number of collaborator requests recorded in an invocation
trace. -/
def sumRequests (trace : List (String × Nat)) : Nat :=
  (trace.map Prod.snd).sum

/-- An example stage instance whose `process` always rejects and issues no
collaborator requests (used to exhibit orchestrator runs on concrete
layer lists). -/
def exampleFailingLayer : PLayer :=
  { layer_name := "sanitization", layer_order := 1,
    process := fun ctx =>
      (createRejectionResult "sanitization" "VALIDATION_ERROR"
        "Input terlalu pendek." "Input too short."
        (some "Please provide more details about your question.") 0, ctx, 0) }

/-- An example stage instance whose `process` always passes and issues
seven collaborator requests. -/
def examplePassingLayer : PLayer :=
  { layer_name := "semantic_validation", layer_order := 2,
    process := fun ctx =>
      (createSuccessResult "semantic_validation" "ok" 0, ctx, 7) }

/-! ## Theorems -/

/-- C7 counterexample: the claim sends `LANGUAGE_NOT_SUPPORTED` to
status 400, but the `_get_status_code` dictionary has no entry for it, so
the default 500 is returned. -/
theorem getStatusCode_language_not_supported_is_500 :
    getStatusCode (some "LANGUAGE_NOT_SUPPORTED") = 500 ∧
    getStatusCode (some "LANGUAGE_NOT_SUPPORTED") ≠ 400 := by
  constructor <;> decide

/-- C7 (amended): `_get_status_code` maps `VALIDATION_ERROR`,
`INJECTION_DETECTED` and `OUT_OF_SCOPE` to 400, `SAFETY_VIOLATION` to
422, and `RAG_FAILURE`, `LLM_FAILURE`, `PROVIDER_NOT_FOUND` and
`INTERNAL_ERROR` to 500; `LANGUAGE_NOT_SUPPORTED` is absent from the
mapping and falls through to the default 500. -/
theorem getStatusCode_mapping :
    getStatusCode (some "VALIDATION_ERROR") = 400 ∧
    getStatusCode (some "INJECTION_DETECTED") = 400 ∧
    getStatusCode (some "OUT_OF_SCOPE") = 400 ∧
    getStatusCode (some "SAFETY_VIOLATION") = 422 ∧
    getStatusCode (some "RAG_FAILURE") = 500 ∧
    getStatusCode (some "LLM_FAILURE") = 500 ∧
    getStatusCode (some "PROVIDER_NOT_FOUND") = 500 ∧
    getStatusCode (some "INTERNAL_ERROR") = 500 ∧
    getStatusCode (some "LANGUAGE_NOT_SUPPORTED") = 500 := by
  repeat constructor

/-- The first component of the routing decision on a non-empty template
list, characterized. -/
lemma templateRoute_cons_isSome (best : SearchHit) (rest : List SearchHit)
    (detectedLanguage : String) :
    (templateRoute (best :: rest) detectedLanguage).1.isSome ↔
      (1 - best.distance.getD 1 ≥ TEMPLATE_HIGH_SIMILARITY_THRESHOLD ∧
       best.language.getD "id" = detectedLanguage) := by
  simp only [templateRoute]
  split_ifs with h1 h2 <;> simp_all

/-- The similarity reported by the routing decision on a non-empty
template list is `1 − distance` of the best hit. -/
lemma templateRoute_cons_snd (best : SearchHit) (rest : List SearchHit)
    (detectedLanguage : String) :
    (templateRoute (best :: rest) detectedLanguage).2 = 1 - best.distance.getD 1 := by
  simp only [templateRoute]
  split_ifs <;> rfl

/-- C2: the hybrid routing decision accepts the best template as a reuse
candidate exactly when its similarity `1 − distance` is at least `0.85`
and its language tag equals the detected language; in particular
similarity exactly `0.85` with a mismatched language and similarity
`0.849999` with a matching language both force fresh generation, while an
empty template result also generates fresh. -/
theorem templateRoute_accepts_iff (best : SearchHit) (rest : List SearchHit)
    (detectedLanguage : String) :
    ((templateRoute (best :: rest) detectedLanguage).1.isSome ↔
      (1 - best.distance.getD 1 ≥ TEMPLATE_HIGH_SIMILARITY_THRESHOLD ∧
       best.language.getD "id" = detectedLanguage)) ∧
    (templateRoute (best :: rest) detectedLanguage).2 = 1 - best.distance.getD 1 ∧
    (templateRoute [] detectedLanguage).1 = none ∧
    (templateRoute [{ distance := some (15/100), language := some "en" }] "id").1 = none ∧
    (templateRoute [{ distance := some (150001/1000000), language := some "id" }] "id").1
      = none ∧
    (templateRoute [{ distance := some (15/100), language := some "id" }] "id").1.isSome
      = true := by
  refine ⟨templateRoute_cons_isSome best rest detectedLanguage,
    templateRoute_cons_snd best rest detectedLanguage, rfl, ?_, ?_, ?_⟩
  · rw [← Option.not_isSome_iff_eq_none, templateRoute_cons_isSome]
    intro h
    exact absurd h.2 (by decide)
  · rw [← Option.not_isSome_iff_eq_none, templateRoute_cons_isSome]
    intro h
    have := h.1
    norm_num [TEMPLATE_HIGH_SIMILARITY_THRESHOLD] at this
  · rw [templateRoute_cons_isSome]
    exact ⟨by norm_num [TEMPLATE_HIGH_SIMILARITY_THRESHOLD], rfl⟩

/-- C6: with the vector store and the embedding service initialized, the
retrieval stage rejects with `RAG_FAILURE` exactly when the concatenation
of the three collection searches is empty, and passes otherwise. -/
theorem ragProcess_empty_iff_rag_failure
    (verses hadith strategies : List RagDoc) (ctx : PipelineContext) (t : ℚ) :
    (verses ++ hadith ++ strategies = [] →
      (ragProcess true true verses hadith strategies ctx t).1.status = .rejected ∧
      (ragProcess true true verses hadith strategies ctx t).1.error_code
        = some "RAG_FAILURE") ∧
    (verses ++ hadith ++ strategies ≠ [] →
      (ragProcess true true verses hadith strategies ctx t).1.status = .passed) := by
  constructor
  · intro h
    have hv : verses = [] ∧ hadith = [] ∧ strategies = [] := by
      simpa [List.append_eq_nil] using h
    unfold ragProcess
    simp [hv.1, hv.2.1, hv.2.2, createRejectionResult]
  · intro h
    have hv : ¬((verses = [] ∧ hadith = []) ∧ strategies = []) := by
      simpa [List.append_eq_nil, and_assoc] using h
    unfold ragProcess
    simp only [Bool.not_true, Bool.false_eq_true, if_false, List.append_eq_nil]
    rw [if_neg hv]
    rfl

/-- C6 witness: at a concrete empty result set the stage rejects with
`RAG_FAILURE`. -/
theorem ragProcess_empty_witness :
    ([] : List RagDoc) ++ [] ++ [] = [] ∧
    ((ragProcess true true [] [] [] (mkPipelineContext "abc" none none "id") 2).1.status
        = .rejected ∧
      (ragProcess true true [] [] [] (mkPipelineContext "abc" none none "id") 2).1.error_code
        = some "RAG_FAILURE") :=
  ⟨rfl, (ragProcess_empty_iff_rag_failure [] [] []
    (mkPipelineContext "abc" none none "id") 2).1 rfl⟩

/-- A knowledge reference whose distance exceeds the relevance threshold
contributes no line in the formatting loop. -/
lemma formatRefLines_eq_nil_of_far (r : SearchHit)
    (h : r.distance.getD 1 > KNOWLEDGE_RELEVANCE_THRESHOLD) :
    formatRefLines r = [] := by
  simp [formatRefLines, h]

/-- C4 counterexample: the claim says no knowledge reference with
distance above `0.7` ever contributes a line, but the story-only fallback
appends its hit without any distance check: with an empty top-K knowledge
list and a single story hit at distance `0.9`, the hit's line is the whole
grounding text, and deleting the far hit changes the text. -/
theorem far_story_reference_contributes :
    (9/10 : ℚ) > KNOWLEDGE_RELEVANCE_THRESHOLD ∧
    formatReferenceLines []
        [{ document := { title := some "t" }, distance := some (9/10) }]
      = ["- Story/Wisdom: t"] ∧
    formatReferenceLines [] [] = [] ∧
    formatReferencesForPrompt []
        [{ document := { title := some "t" }, distance := some (9/10) }]
      ≠ formatReferencesForPrompt [] [] := by
  refine ⟨by norm_num [KNOWLEDGE_RELEVANCE_THRESHOLD], rfl, rfl, ?_⟩
  decide

/-- C4 (amended): within the top-K knowledge-reference list, hits with
distance above `0.7` contribute nothing — dropping them leaves the
grounding text unchanged; the story-only fallback list is exempt from the
distance filter. -/
theorem formatReferences_ignores_far_knowledge_refs
    (knowledgeRefs stories : List SearchHit) :
    formatReferencesForPrompt
        (knowledgeRefs.filter
          (fun r => !decide (r.distance.getD 1 > KNOWLEDGE_RELEVANCE_THRESHOLD)))
        stories
      = formatReferencesForPrompt knowledgeRefs stories := by
  suffices h : (knowledgeRefs.filter
      (fun r => !decide (r.distance.getD 1 > KNOWLEDGE_RELEVANCE_THRESHOLD))).flatMap
        formatRefLines
      = knowledgeRefs.flatMap formatRefLines by
    unfold formatReferencesForPrompt formatReferenceLines
    rw [h]
  induction knowledgeRefs with
  | nil => rfl
  | cons r rs ih =>
      by_cases hr : r.distance.getD 1 > KNOWLEDGE_RELEVANCE_THRESHOLD
      · simp [List.filter_cons, hr, formatRefLines_eq_nil_of_far r hr, ih]
      · simp [List.filter_cons, hr, ih]

/-- The story fallback produces exactly one `- Story/Wisdom:` line when
some story hit has a non-empty title or content. -/
lemma storyFallbackLines_of_nonempty_hit (stories : List SearchHit)
    (h : ∃ s ∈ stories,
      s.document.title.getD "" ≠ "" ∨ s.document.content.getD "" ≠ "") :
    ∃ x, storyFallbackLines stories = ["- Story/Wisdom: " ++ x] := by
  induction stories with
  | nil => simp at h
  | cons s rest ih =>
      by_cases hs : s.document.title.getD "" ≠ "" ∨ s.document.content.getD "" ≠ ""
      · exact ⟨pyOrStr (s.document.title.getD "") (s.document.content.getD ""),
          by simp [storyFallbackLines, hs]⟩
      · have h2 : ∃ x ∈ rest,
            x.document.title.getD "" ≠ "" ∨ x.document.content.getD "" ≠ "" := by
          rcases h with ⟨u, hu, hprop⟩
          rcases List.mem_cons.mp hu with h1 | h1
          · exact absurd (h1 ▸ hprop) hs
          · exact ⟨u, h1, hprop⟩
        obtain ⟨x, hx⟩ := ih h2
        refine ⟨x, ?_⟩
        rw [← hx]
        simp only [storyFallbackLines]
        rw [if_neg hs]

/-- A line of the shape `- Story/Wisdom: x` contains the substring
`Story/Wisdom`. -/
lemma strContains_story_line (x : String) :
    strContains ("- Story/Wisdom: " ++ x) "Story/Wisdom" = true := by
  unfold strContains listContains
  rw [List.any_eq_true]
  refine ⟨2, List.mem_range.mpr ?_, ?_⟩
  · simp [String.toList, String.data_append]
  · have hsplit : ("- Story/Wisdom: " ++ x).toList = "- Story/Wisdom: ".toList ++ x.toList := by
      simp [String.toList, String.data_append]
    rw [hsplit]
    have hdrop : ("- Story/Wisdom: ".toList ++ x.toList).drop 2
        = "Story/Wisdom: ".toList ++ x.toList := by
      simp [String.toList]
    rw [hdrop, List.isPrefixOf_iff_prefix]
    refine List.IsPrefix.trans ?_ (List.prefix_append _ _)
    decide

/-- C5 counterexample: a verse whose title happens to contain the
substring `Story/Wisdom` suppresses the story fallback, so even though a
story hit with a non-empty title exists, the final grounding lines hold no
story reference — the only line is a verse line. -/
theorem story_invariant_counterexample :
    storyFallbackLines [{ document := { title := some "tale" } }]
      = ["- Story/Wisdom: tale"] ∧
    formatReferenceLines
        [{ document := { category := some "VERSE",
                         title := some "Story/Wisdom of Luqman",
                         source := some "QS" }, distance := some 0 }]
        [{ document := { title := some "tale" } }]
      = ["- Verse (QS): Story/Wisdom of Luqman"] ∧
    ("- Story/Wisdom: ".toList.isPrefixOf
        "- Verse (QS): Story/Wisdom of Luqman".toList) = false := by
  have h0 : ¬((0 : ℚ) > KNOWLEDGE_RELEVANCE_THRESHOLD) := by
    norm_num [KNOWLEDGE_RELEVANCE_THRESHOLD]
  refine ⟨rfl, ?_, by decide⟩
  have h1 : formatRefLines
      { document := { category := some "VERSE",
                      title := some "Story/Wisdom of Luqman",
                      source := some "QS" }, distance := some 0 }
      = ["- Verse (QS): Story/Wisdom of Luqman"] := by
    simp only [formatRefLines, Option.getD_some]
    rw [if_neg h0]
    decide
  unfold formatReferenceLines
  rw [List.flatMap_cons, List.flatMap_nil, h1]
  decide

/-- C5 (amended): whenever the story-only lookup returns a hit with a
non-empty title or content, the assembled grounding lines contain a line
with the substring `Story/Wisdom` — either some knowledge-reference line
already contains that substring (the presence check is by substring, so
such a line need not be a story reference), or the first non-empty story
hit's line is appended. -/
theorem story_substring_line_present (knowledgeRefs stories : List SearchHit)
    (h : ∃ s ∈ stories,
      s.document.title.getD "" ≠ "" ∨ s.document.content.getD "" ≠ "") :
    ∃ line ∈ formatReferenceLines knowledgeRefs stories,
      strContains line "Story/Wisdom" = true := by
  unfold formatReferenceLines
  by_cases ha : (knowledgeRefs.flatMap formatRefLines).any
      (fun r => strContains r "Story/Wisdom") = true
  · rw [if_pos ha]
    obtain ⟨line, hmem, hc⟩ := List.any_eq_true.mp ha
    exact ⟨line, hmem, hc⟩
  · rw [if_neg ha]
    obtain ⟨x, hx⟩ := storyFallbackLines_of_nonempty_hit stories h
    refine ⟨"- Story/Wisdom: " ++ x, ?_, strContains_story_line x⟩
    rw [hx]
    simp

/-- C5 witness: with no knowledge references and one story hit titled
`tale`, a `Story/Wisdom` line is present. -/
theorem story_substring_line_present_witness :
    (∃ s ∈ ([{ document := { title := some "tale" } }] : List SearchHit),
      s.document.title.getD "" ≠ "" ∨ s.document.content.getD "" ≠ "") ∧
    (∃ line ∈ formatReferenceLines [] [{ document := { title := some "tale" } }],
      strContains line "Story/Wisdom" = true) :=
  ⟨⟨{ document := { title := some "tale" } }, by simp, Or.inl (by decide)⟩,
    story_substring_line_present [] [{ document := { title := some "tale" } }]
      ⟨{ document := { title := some "tale" } }, by simp, Or.inl (by decide)⟩⟩

/-- Invariant of the best-scope selection loop: starting from accumulator
`(m, b)`, either no element beats `m` and the accumulator is returned
unchanged, or the result value is the first maximum of the remaining list
among those strictly above `m`, at absolute index `i + k`. -/
lemma selectLoop_spec (l : List ℚ) : ∀ (i : Nat) (m : ℚ) (b : Int),
    (selectLoop l i (m, b) = (m, b) ∧ ∀ s ∈ l, s ≤ m) ∨
    (∃ k, k < l.length ∧ l[k]? = some (selectLoop l i (m, b)).1 ∧
      (selectLoop l i (m, b)).2 = ((i + k : Nat) : Int) ∧
      m < (selectLoop l i (m, b)).1 ∧
      (∀ j < k, ∀ s, l[j]? = some s → s < (selectLoop l i (m, b)).1) ∧
      (∀ s ∈ l, s ≤ (selectLoop l i (m, b)).1)) := by
  induction l with
  | nil =>
      intro i m b
      exact Or.inl ⟨rfl, by simp⟩
  | cons s rest ih =>
      intro i m b
      by_cases hs : s > m
      · have hstep : selectLoop (s :: rest) i (m, b)
            = selectLoop rest (i + 1) (s, (i : Int)) := by
          simp [selectLoop, hs]
        rw [hstep]
        rcases ih (i + 1) s (i : Int) with ⟨heq, hle⟩ | ⟨k, hk, hget, hidx, hlt, hbef, hall⟩
        · refine Or.inr ⟨0, by simp, ?_, ?_, ?_, ?_, ?_⟩
          · simp [heq]
          · simp [heq]
          · simpa [heq] using hs
          · intro j hj
            omega
          · intro x hx
            rcases List.mem_cons.mp hx with h1 | h1
            · simp [heq, h1]
            · simpa [heq] using hle x h1
        · refine Or.inr ⟨k + 1, by simpa using hk, ?_, ?_, ?_, ?_, ?_⟩
          · simpa using hget
          · rw [hidx]
            congr 1
            omega
          · exact lt_trans hs hlt
          · intro j hj x hx
            match j with
            | 0 =>
                simp only [List.getElem?_cons_zero, Option.some.injEq] at hx
                exact hx ▸ hlt
            | j' + 1 =>
                have hj' : j' < k := by omega
                exact hbef j' hj' x (by simpa using hx)
          · intro x hx
            rcases List.mem_cons.mp hx with h1 | h1
            · exact le_of_lt (lt_of_eq_of_lt h1 hlt)
            · exact hall x h1
      · have hstep : selectLoop (s :: rest) i (m, b)
            = selectLoop rest (i + 1) (m, b) := by
          simp [selectLoop, hs]
        rw [hstep]
        rcases ih (i + 1) m b with ⟨heq, hle⟩ | ⟨k, hk, hget, hidx, hlt, hbef, hall⟩
        · refine Or.inl ⟨heq, ?_⟩
          intro x hx
          rcases List.mem_cons.mp hx with h1 | h1
          · exact h1 ▸ le_of_not_lt hs
          · exact hle x h1
        · refine Or.inr ⟨k + 1, by simpa using hk, ?_, ?_, ?_, ?_, ?_⟩
          · simpa using hget
          · rw [hidx]
            congr 1
            omega
          · exact hlt
          · intro j hj x hx
            match j with
            | 0 =>
                simp only [List.getElem?_cons_zero, Option.some.injEq] at hx
                exact hx ▸ lt_of_le_of_lt (le_of_not_lt hs) hlt
            | j' + 1 =>
                have hj' : j' < k := by omega
                exact hbef j' hj' x (by simpa using hx)
          · intro x hx
            rcases List.mem_cons.mp hx with h1 | h1
            · exact le_of_lt (lt_of_eq_of_lt h1 (lt_of_le_of_lt (le_of_not_lt hs) hlt))
            · exact hall x h1

/-- The two possible outcomes of `selectBestScope`: either no similarity
is strictly positive and the pair stays `(0.0, -1)`, or the result is the
first maximum of the list and it is positive. -/
lemma selectBestScope_cases (sims : List ℚ) :
    (selectBestScope sims = (0, -1) ∧ ∀ s ∈ sims, s ≤ 0) ∨
    (∃ k, k < sims.length ∧ sims[k]? = some (selectBestScope sims).1 ∧
      (selectBestScope sims).2 = (k : Int) ∧ 0 < (selectBestScope sims).1 ∧
      (∀ j < k, ∀ s, sims[j]? = some s → s < (selectBestScope sims).1) ∧
      (∀ s ∈ sims, s ≤ (selectBestScope sims).1)) := by
  have h := selectLoop_spec sims 0 0 (-1)
  simpa [selectBestScope] using h

/-- Comparing the loop's recorded maximum with the true maximum `M` of a
non-empty similarity list: both sit on the same side of any positive
bound. -/
lemma selectBestScope_fst_lt_iff (sims : List ℚ) (M c : ℚ) (hM : M ∈ sims)
    (hmax : ∀ s ∈ sims, s ≤ M) (hc : 0 < c) :
    ((selectBestScope sims).1 < c ↔ M < c) := by
  rcases selectBestScope_cases sims with ⟨heq, hle⟩ | ⟨k, _, hget, _, hpos, _, hall⟩
  · rw [heq]
    have hM0 : M ≤ 0 := hle M hM
    simp only []
    constructor
    · intro _
      exact lt_of_le_of_lt hM0 hc
    · intro _
      exact hc
  · have hmem : (selectBestScope sims).1 ∈ sims := by
      exact List.getElem?_mem hget
    have h1 : (selectBestScope sims).1 ≤ M := hmax _ hmem
    have h2 : M ≤ (selectBestScope sims).1 := hall M hM
    rw [le_antisymm h1 h2]

/-- The semantic layer always records exactly one `(scope, score)` pair:
the loop's maximum under the `scope_names` entry at the loop's best
index (Python-indexed, so `-1` selects the last name). -/
lemma semanticProcess_scores (th : ℚ) (sims : List ℚ) (ctx : PipelineContext)
    (t : ℚ) :
    (semanticProcess true th sims ctx t).2.semantic_scores
      = [((pyIndex scopeNames (selectBestScope sims).2).getD "",
          (selectBestScope sims).1)] := by
  simp only [semanticProcess, Bool.not_true, Bool.false_eq_true, if_false]
  split_ifs <;> rfl

/-- C3: with the default primary threshold `0.45`, the scope classifier
rejects with `OUT_OF_SCOPE` exactly when the best similarity `M` is below
`0.45`, or below `0.50` with no curated domain keyword in the input; any
other combination passes and sets the resolved scope on the context. -/
theorem semantic_scope_gate (sims : List ℚ) (M : ℚ) (ctx : PipelineContext)
    (t : ℚ) (hM : M ∈ sims) (hmax : ∀ s ∈ sims, s ≤ M) :
    (((semanticProcess true semanticSimilarityThreshold sims ctx t).1.status
          = .rejected ∧
      (semanticProcess true semanticSimilarityThreshold sims ctx t).1.error_code
          = some "OUT_OF_SCOPE") ↔
      (M < semanticSimilarityThreshold ∨
        (M < 1/2 ∧ checkKeywordRelevance ctx.processed_input = false))) ∧
    ((semanticProcess true semanticSimilarityThreshold sims ctx t).1.status
        = .passed ↔
      ¬(M < semanticSimilarityThreshold ∨
        (M < 1/2 ∧ checkKeywordRelevance ctx.processed_input = false))) ∧
    ((semanticProcess true semanticSimilarityThreshold sims ctx t).1.status
        = .passed →
      (semanticProcess true semanticSimilarityThreshold sims ctx t).2.detected_scope.isSome
        = true) := by
  have hiff1 : ((selectBestScope sims).1 < semanticSimilarityThreshold ↔
      M < semanticSimilarityThreshold) :=
    selectBestScope_fst_lt_iff sims M _ hM hmax (by norm_num [semanticSimilarityThreshold])
  have hiff2 : ((selectBestScope sims).1 < 1/2 ↔ M < 1/2) :=
    selectBestScope_fst_lt_iff sims M _ hM hmax (by norm_num)
  by_cases h1 : (selectBestScope sims).1 < semanticSimilarityThreshold
  · have hstat : (semanticProcess true semanticSimilarityThreshold sims ctx t).1.status
        = .rejected := by
      simp only [semanticProcess, Bool.not_true, Bool.false_eq_true, if_false]
      rw [if_pos h1]
      rfl
    have hcode : (semanticProcess true semanticSimilarityThreshold sims ctx t).1.error_code
        = some "OUT_OF_SCOPE" := by
      simp only [semanticProcess, Bool.not_true, Bool.false_eq_true, if_false]
      rw [if_pos h1]
      rfl
    have hrhs : M < semanticSimilarityThreshold ∨
        (M < 1/2 ∧ checkKeywordRelevance ctx.processed_input = false) :=
      Or.inl (hiff1.mp h1)
    refine ⟨iff_of_true ⟨hstat, hcode⟩ hrhs, iff_of_false (by simp [hstat]) ?_, ?_⟩
    · exact not_not_intro hrhs
    · intro h
      rw [hstat] at h
      exact absurd h (by simp)
  · by_cases h2 : (selectBestScope sims).1 < 1/2 ∧
        ¬checkKeywordRelevance ctx.processed_input = true
    · have hstat : (semanticProcess true semanticSimilarityThreshold sims ctx t).1.status
          = .rejected := by
        simp only [semanticProcess, Bool.not_true, Bool.false_eq_true, if_false]
        rw [if_neg h1, if_pos h2]
        rfl
      have hcode : (semanticProcess true semanticSimilarityThreshold sims ctx t).1.error_code
          = some "OUT_OF_SCOPE" := by
        simp only [semanticProcess, Bool.not_true, Bool.false_eq_true, if_false]
        rw [if_neg h1, if_pos h2]
        rfl
      have hrhs : M < semanticSimilarityThreshold ∨
          (M < 1/2 ∧ checkKeywordRelevance ctx.processed_input = false) :=
        Or.inr ⟨hiff2.mp h2.1, by simpa using h2.2⟩
      refine ⟨iff_of_true ⟨hstat, hcode⟩ hrhs, iff_of_false (by simp [hstat]) ?_, ?_⟩
      · exact not_not_intro hrhs
      · intro h
        rw [hstat] at h
        exact absurd h (by simp)
    · have hstat : (semanticProcess true semanticSimilarityThreshold sims ctx t).1.status
          = .passed := by
        simp only [semanticProcess, Bool.not_true, Bool.false_eq_true, if_false]
        rw [if_neg h1, if_neg h2]
        rfl
      have hcode : (semanticProcess true semanticSimilarityThreshold sims ctx t).1.error_code
          = none := by
        simp only [semanticProcess, Bool.not_true, Bool.false_eq_true, if_false]
        rw [if_neg h1, if_neg h2]
        rfl
      have hscope : (semanticProcess true semanticSimilarityThreshold
          sims ctx t).2.detected_scope.isSome = true := by
        simp only [semanticProcess, Bool.not_true, Bool.false_eq_true, if_false]
        rw [if_neg h1, if_neg h2]
        rfl
      have hrhs : ¬(M < semanticSimilarityThreshold ∨
          (M < 1/2 ∧ checkKeywordRelevance ctx.processed_input = false)) := by
        rintro (h | h)
        · exact absurd (hiff1.mpr h) h1
        · refine absurd ⟨hiff2.mpr h.1, ?_⟩ h2
          simp [h.2]
      refine ⟨iff_of_false ?_ hrhs, iff_of_true hstat hrhs, fun _ => hscope⟩
      intro h
      rw [hstat] at h
      exact absurd h.1 (by simp)

/-- C3 witness: a single similarity `0.6` with any context passes (it is
at least `0.50`), so the rejection condition is false and the scope is
set. -/
theorem semantic_scope_gate_witness :
    ((3/5 : ℚ) ∈ [(3/5 : ℚ)]) ∧
    ((semanticProcess true semanticSimilarityThreshold [3/5]
        (mkPipelineContext "abc" none none "id") 0).1.status = .passed ↔
      ¬((3/5 : ℚ) < semanticSimilarityThreshold ∨
        ((3/5 : ℚ) < 1/2 ∧
          checkKeywordRelevance
            (mkPipelineContext "abc" none none "id").processed_input = false))) :=
  ⟨List.mem_singleton.mpr rfl,
    (semantic_scope_gate [3/5] (3/5) (mkPipelineContext "abc" none none "id") 0
      (List.mem_singleton.mpr rfl)
      (by intro s hs; rw [List.mem_singleton.mp hs])).2.1⟩

/-- Python indexing at a natural number is plain list lookup. -/
lemma pyIndex_natCast (l : List String) (k : Nat) : pyIndex l (k : Int) = l[k]? := by
  simp [pyIndex]

/-- C9 counterexample: when every cosine similarity is negative, the loop
never updates its accumulator, so the recorded pair is the *last* scope
name (Python `scope_names[-1]`, i.e. `spiritual_growth`) with score `0.0`
— not the first scope attaining the true maximum (`worship` with `-1`). -/
theorem scope_recording_counterexample :
    (semanticProcess true semanticSimilarityThreshold [-1, -1, -1, -1, -1, -1]
        (mkPipelineContext "abc" none none "id") 0).2.semantic_scores
      = [("spiritual_growth", 0)] ∧
    scopeNames[0]? = some "worship" ∧
    [(("spiritual_growth" : String), (0 : ℚ))] ≠ [(("worship" : String), (-1 : ℚ))] := by
  refine ⟨?_, rfl, by decide⟩
  have hsel : selectBestScope ([-1, -1, -1, -1, -1, -1] : List ℚ) = (0, -1) := by
    decide
  rw [semanticProcess_scores, hsel]
  decide

/-- C9 (amended): whenever at least one cached-scope similarity is
strictly positive, the recorded `(scope, score)` pair is the loop maximum
paired with the name of the first scope attaining it (ties broken by
first-encountered); when all similarities are non-positive the loop
records score `0.0` under the last scope name instead. -/
theorem scope_selection_first_max (sims : List ℚ) (ctx : PipelineContext)
    (t : ℚ) (hlen : sims.length = 6) (hpos : ∃ s ∈ sims, 0 < s) :
    ∃ k, IsFirstMax sims (selectBestScope sims).1 k ∧
      k < scopeNames.length ∧
      (selectBestScope sims).2 = (k : Int) ∧
      (semanticProcess true semanticSimilarityThreshold sims ctx t).2.semantic_scores
        = [((scopeNames[k]?).getD "", (selectBestScope sims).1)] := by
  rcases selectBestScope_cases sims with ⟨heq, hle⟩ | ⟨k, hk, hget, hidx, _, hbef, hall⟩
  · obtain ⟨s, hs, hspos⟩ := hpos
    exact absurd (hle s hs) (not_le.mpr hspos)
  · refine ⟨k, ⟨hk, hget, hbef, hall⟩, ?_, hidx, ?_⟩
    · rw [hlen] at hk
      simpa [scopeNames] using hk
    · rw [semanticProcess_scores, hidx, pyIndex_natCast]

/-- C9 witness: at similarities `[0.6, 0.2, 0, 0, 0, 0]` the first scope
attains the maximum and is recorded. -/
theorem scope_selection_first_max_witness :
    ([(3 : ℚ)/5, 1/5, 0, 0, 0, 0].length = 6) ∧
    (∃ s ∈ [(3 : ℚ)/5, 1/5, 0, 0, 0, 0], 0 < s) ∧
    (∃ k, IsFirstMax [(3 : ℚ)/5, 1/5, 0, 0, 0, 0]
        (selectBestScope [(3 : ℚ)/5, 1/5, 0, 0, 0, 0]).1 k ∧
      k < scopeNames.length ∧
      (selectBestScope [(3 : ℚ)/5, 1/5, 0, 0, 0, 0]).2 = (k : Int) ∧
      (semanticProcess true semanticSimilarityThreshold [(3 : ℚ)/5, 1/5, 0, 0, 0, 0]
          (mkPipelineContext "abc" none none "id") 0).2.semantic_scores
        = [((scopeNames[k]?).getD "",
            (selectBestScope [(3 : ℚ)/5, 1/5, 0, 0, 0, 0]).1)]) :=
  ⟨rfl, ⟨3/5, by simp, by norm_num⟩,
    scope_selection_first_max [(3 : ℚ)/5, 1/5, 0, 0, 0, 0]
      (mkPipelineContext "abc" none none "id") 0 rfl ⟨3/5, by simp, by norm_num⟩⟩

/-- Running the layer list `pre ++ l :: post` from `ctx`, when every
stage of `pre` passes (ending in context `ctx1`) and `l` then rejects or
errors: the run returns the error envelope built from `l`'s result, and
the invocation trace is exactly the stages of `pre` followed by `l` — no
stage of `post` is invoked. -/
lemma runLayers_short_circuit (pre : List PLayer) (l : PLayer) (post : List PLayer) :
    ∀ ctx ctx1 : PipelineContext,
      runPrefix pre ctx = some ctx1 →
      ((l.process ctx1).1.status = .rejected ∨ (l.process ctx1).1.status = .error) →
      (runLayers (pre ++ l :: post) ctx).1
        = .errorResp (buildErrorResponse (l.process ctx1).1 (l.process ctx1).2.1) ∧
      (runLayers (pre ++ l :: post) ctx).2.map Prod.fst
        = (pre ++ [l]).map PLayer.layer_name := by
  induction pre with
  | nil =>
      intro ctx ctx1 hpre hfail
      have hctx : ctx = ctx1 := by
        simpa [runPrefix] using hpre
      subst hctx
      constructor
      · simp only [List.nil_append, runLayers]
        rw [if_pos hfail]
      · simp only [List.nil_append, runLayers]
        rw [if_pos hfail]
        rfl
  | cons p rest ih =>
      intro ctx ctx1 hpre hfail
      have hcond : ¬((p.process ctx).1.status = .rejected ∨
          (p.process ctx).1.status = .error) := by
        intro hc
        rw [runPrefix] at hpre
        rw [if_pos hc] at hpre
        exact Option.noConfusion hpre
      have hrest : runPrefix rest (p.process ctx).2.1 = some ctx1 := by
        rw [runPrefix] at hpre
        rwa [if_neg hcond] at hpre
      obtain ⟨ih1, ih2⟩ := ih (p.process ctx).2.1 ctx1 hrest hfail
      constructor
      · simp only [List.cons_append, runLayers]
        rw [if_neg hcond]
        exact ih1
      · simp only [List.cons_append, runLayers, List.map_cons]
        rw [if_neg hcond]
        simpa using ih2

/-- C1: when the stage at position `i` of the sorted layer list (here
`pre ++ l :: post` with `i = |pre|`) is the first whose outcome is
`Rejected` or `Errored`, the orchestrator returns the error envelope built
from that stage's result — naming it as the failing stage — no later
stage's `process` is invoked, and the number of collaborator requests
issued after the failing stage is zero. -/
theorem orchestrator_short_circuit (layers : List PLayer) (raw : String)
    (uid sid : Option String) (lang : String)
    (pre : List PLayer) (l : PLayer) (post : List PLayer) (ctx1 : PipelineContext)
    (hsort : sortLayers layers = pre ++ l :: post)
    (hpre : runPrefix pre (mkPipelineContext raw uid sid lang) = some ctx1)
    (hfail : (l.process ctx1).1.status = .rejected ∨
      (l.process ctx1).1.status = .error)
    (hname : (l.process ctx1).1.layer_name = l.layer_name) :
    (executeOrchestrator layers raw uid sid lang).1
      = .errorResp (buildErrorResponse (l.process ctx1).1 (l.process ctx1).2.1) ∧
    (buildErrorResponse (l.process ctx1).1 (l.process ctx1).2.1).failed_at_layer
      = l.layer_name ∧
    (executeOrchestrator layers raw uid sid lang).2.map Prod.fst
      = (pre ++ [l]).map PLayer.layer_name ∧
    sumRequests ((executeOrchestrator layers raw uid sid lang).2.drop
      (pre.length + 1)) = 0 := by
  have hexec : executeOrchestrator layers raw uid sid lang
      = runLayers (pre ++ l :: post) (mkPipelineContext raw uid sid lang) := by
    unfold executeOrchestrator
    rw [hsort]
  obtain ⟨h1, h2⟩ := runLayers_short_circuit pre l post
    (mkPipelineContext raw uid sid lang) ctx1 hpre hfail
  refine ⟨by rw [hexec]; exact h1, ?_, by rw [hexec]; exact h2, ?_⟩
  · simp [buildErrorResponse, hname]
  · have hlen : (executeOrchestrator layers raw uid sid lang).2.length
        = pre.length + 1 := by
      have hmaps := congrArg List.length h2
      rw [List.length_map, List.length_map, List.length_append] at hmaps
      rw [hexec]
      simpa using hmaps
    rw [List.drop_eq_nil_of_le (le_of_eq hlen)]
    rfl

/-- C1 witness: a two-layer pipeline whose first (lowest-order) stage
rejects — the run stops there, names it, and the passing second stage
(which would issue seven requests) is never invoked. -/
theorem orchestrator_short_circuit_witness :
    sortLayers [exampleFailingLayer, examplePassingLayer]
      = [] ++ exampleFailingLayer :: [examplePassingLayer] ∧
    runPrefix [] (mkPipelineContext "abc" none none "id")
      = some (mkPipelineContext "abc" none none "id") ∧
    ((exampleFailingLayer.process (mkPipelineContext "abc" none none "id")).1.status
        = .rejected ∨
      (exampleFailingLayer.process (mkPipelineContext "abc" none none "id")).1.status
        = .error) ∧
    ((executeOrchestrator [exampleFailingLayer, examplePassingLayer] "abc" none none "id").1
      = .errorResp (buildErrorResponse
          (exampleFailingLayer.process (mkPipelineContext "abc" none none "id")).1
          (exampleFailingLayer.process (mkPipelineContext "abc" none none "id")).2.1) ∧
    (buildErrorResponse
        (exampleFailingLayer.process (mkPipelineContext "abc" none none "id")).1
        (exampleFailingLayer.process (mkPipelineContext "abc" none none "id")).2.1).failed_at_layer
      = exampleFailingLayer.layer_name ∧
    (executeOrchestrator [exampleFailingLayer, examplePassingLayer] "abc" none none "id").2.map
        Prod.fst
      = ([] ++ [exampleFailingLayer]).map PLayer.layer_name ∧
    sumRequests
      ((executeOrchestrator [exampleFailingLayer, examplePassingLayer] "abc" none none "id").2.drop
        (List.length ([] : List PLayer) + 1)) = 0) :=
  ⟨rfl, rfl, Or.inl rfl,
    orchestrator_short_circuit [exampleFailingLayer, examplePassingLayer] "abc" none none "id"
      [] exampleFailingLayer [examplePassingLayer]
      (mkPipelineContext "abc" none none "id") rfl rfl (Or.inl rfl) rfl⟩

/-- Projections of a freshly built pipeline context. -/
lemma mkPipelineContext_fields (raw : String) (uid sid : Option String)
    (lang : String) :
    (mkPipelineContext raw uid sid lang).raw_input = raw ∧
    (mkPipelineContext raw uid sid lang).processed_input = raw ∧
    (mkPipelineContext raw uid sid lang).detected_language = none ∧
    (mkPipelineContext raw uid sid lang).language = lang ∧
    (mkPipelineContext raw uid sid lang).layer_timings = [] := by
  simp [mkPipelineContext, postInit]

/-- C8 counterexample: a sanitization rejection (input `"hi"` is shorter
than the 10-character minimum) leaves the timing map without any entry
for the completed stage — the source records the timing only on the
success path. -/
theorem stage_timing_counterexample :
    (sanitizationProcess
        { injectionSearch := fun _ => false, langdetectVote := fun _ => none }
        (mkPipelineContext "hi" none none "id") 5).1.status = .rejected ∧
    (sanitizationProcess
        { injectionSearch := fun _ => false, langdetectVote := fun _ => none }
        (mkPipelineContext "hi" none none "id") 5).2.layer_timings = [] := by
  constructor
  · rfl
  · rfl

/-- C8 (amended): a stage that completes with `Passed` appends its elapsed
time under its own name at the end of the context's timing map, so
insertion order equals execution order; the semantic and retrieval stages
also record on rejection, but sanitization rejections (and the stages'
internal error paths) record nothing. -/
theorem stage_timing_on_completion (p : SanitizeParams) (ctx : PipelineContext)
    (t th : ℚ) (sims : List ℚ) (verses hadith strategies : List RagDoc) :
    ((sanitizationProcess p ctx t).1.status = .passed →
      (sanitizationProcess p ctx t).2.layer_timings
        = ctx.layer_timings ++ [("sanitization", t)]) ∧
    (semanticProcess true th sims ctx t).2.layer_timings
      = ctx.layer_timings ++ [("semantic_validation", t)] ∧
    (ragProcess true true verses hadith strategies ctx t).2.layer_timings
      = ctx.layer_timings ++ [("rag_retrieval", t)] := by
    refine ⟨?_, ?_, ?_⟩
    · intro h
      simp only [sanitizationProcess] at h ⊢
      split_ifs at h ⊢ <;>
        first
          | rfl
          | (exact absurd h (by simp [createRejectionResult]))
    · simp only [semanticProcess, Bool.not_true, Bool.false_eq_true, if_false]
      split_ifs <;> rfl
    · simp only [ragProcess, Bool.not_true, Bool.false_eq_true, if_false]
      split_ifs <;> rfl

/-- C8 witness: the Indonesian input `saya sholat` passes sanitization
and the timing entry is appended. -/
theorem stage_timing_on_completion_witness :
    (sanitizationProcess
        { injectionSearch := fun _ => false, langdetectVote := fun _ => none }
        (mkPipelineContext "saya sholat" none none "id") 3).1.status = .passed ∧
    (sanitizationProcess
        { injectionSearch := fun _ => false, langdetectVote := fun _ => none }
        (mkPipelineContext "saya sholat" none none "id") 3).2.layer_timings
      = (mkPipelineContext "saya sholat" none none "id").layer_timings
        ++ [("sanitization", 3)] :=
  ⟨by decide,
    (stage_timing_on_completion
      { injectionSearch := fun _ => false, langdetectVote := fun _ => none }
      (mkPipelineContext "saya sholat" none none "id") 3 0 [] [] [] []).1
      (by decide)⟩

/-- C10: whenever sanitization rejects an input built into a fresh
context, `processed_input` still equals the raw input; a rejection for
injection, gibberish or profanity (identified by their fixed error code or
suggested action) happens after the detected language was written — the
detected language with the requested language as fallback — while a
rejection for the length bounds or an unsupported language leaves
`detected_language` unset. -/
theorem sanitization_rejection_frame (p : SanitizeParams) (raw : String)
    (uid sid : Option String) (lang : String) (t : ℚ) :
    (sanitizationProcess p (mkPipelineContext raw uid sid lang) t).1.status
        = .rejected →
      ((sanitizationProcess p (mkPipelineContext raw uid sid lang) t).2.processed_input
          = raw ∧
       (((sanitizationProcess p (mkPipelineContext raw uid sid lang) t).1.error_code
            = some "INJECTION_DETECTED" ∨
         (sanitizationProcess p (mkPipelineContext raw uid sid lang) t).1.suggested_action
            = some "Rephrase your question with real words and meaningful content." ∨
         (sanitizationProcess p (mkPipelineContext raw uid sid lang) t).1.suggested_action
            = some "Please rephrase your question using appropriate language.") →
        (sanitizationProcess p (mkPipelineContext raw uid sid lang) t).2.detected_language
          = some ((detectLanguage p (pyStrip raw.toList)).getD lang)) ∧
       (((sanitizationProcess p (mkPipelineContext raw uid sid lang) t).1.suggested_action
            = some "Please provide more details about your question." ∨
         (sanitizationProcess p (mkPipelineContext raw uid sid lang) t).1.suggested_action
            = some "Please shorten your question to be more concise." ∨
         (sanitizationProcess p (mkPipelineContext raw uid sid lang) t).1.error_code
            = some "LANGUAGE_NOT_SUPPORTED") →
        (sanitizationProcess p (mkPipelineContext raw uid sid lang) t).2.detected_language
          = none)) := by
  obtain ⟨hraw, hproc, hdet, hlang, -⟩ :=
    mkPipelineContext_fields raw uid sid lang
  intro hrej
  simp only [sanitizationProcess, hraw, hlang] at hrej ⊢
  split_ifs at hrej ⊢ with h1 h2 h3 h4 h5 h6
  · exact ⟨hproc, fun h => by
      rcases h with h | h | h <;> simp [createRejectionResult, supportedList] at h, fun _ => hdet⟩
  · exact ⟨hproc, fun h => by
      rcases h with h | h | h <;> simp [createRejectionResult, supportedList] at h, fun _ => hdet⟩
  · exact ⟨hproc, fun h => by
      rcases h with h | h | h <;> simp [createRejectionResult, supportedList] at h, fun _ => hdet⟩
  · exact ⟨hproc, fun _ => rfl, fun h => by
      rcases h with h | h | h <;> simp [createRejectionResult, supportedList] at h⟩
  · exact ⟨hproc, fun _ => rfl, fun h => by
      rcases h with h | h | h <;> simp [createRejectionResult, supportedList] at h⟩
  · exact ⟨hproc, fun _ => rfl, fun h => by
      rcases h with h | h | h <;> simp [createRejectionResult, supportedList] at h⟩
  · exact absurd hrej (by simp [createSuccessResult])

/-- C10 witness: an Indonesian input containing profanity is rejected
with the profanity suggested action; `processed_input` still equals the
raw input and the detected language was already stored. -/
theorem sanitization_rejection_frame_witness :
    (sanitizationProcess
        { injectionSearch := fun _ => false, langdetectVote := fun _ => none }
        (mkPipelineContext "kontol dan anjing itu ada" none none "id") 0).1.status
      = .rejected ∧
    ((sanitizationProcess
        { injectionSearch := fun _ => false, langdetectVote := fun _ => none }
        (mkPipelineContext "kontol dan anjing itu ada" none none "id") 0).2.processed_input
      = "kontol dan anjing itu ada" ∧
    (((sanitizationProcess
          { injectionSearch := fun _ => false, langdetectVote := fun _ => none }
          (mkPipelineContext "kontol dan anjing itu ada" none none "id") 0).1.error_code
        = some "INJECTION_DETECTED" ∨
      (sanitizationProcess
          { injectionSearch := fun _ => false, langdetectVote := fun _ => none }
          (mkPipelineContext "kontol dan anjing itu ada" none none "id") 0).1.suggested_action
        = some "Rephrase your question with real words and meaningful content." ∨
      (sanitizationProcess
          { injectionSearch := fun _ => false, langdetectVote := fun _ => none }
          (mkPipelineContext "kontol dan anjing itu ada" none none "id") 0).1.suggested_action
        = some "Please rephrase your question using appropriate language.") →
      (sanitizationProcess
          { injectionSearch := fun _ => false, langdetectVote := fun _ => none }
          (mkPipelineContext "kontol dan anjing itu ada" none none "id") 0).2.detected_language
        = some ((detectLanguage
            { injectionSearch := fun _ => false, langdetectVote := fun _ => none }
            (pyStrip "kontol dan anjing itu ada".toList)).getD "id")) ∧
    (((sanitizationProcess
          { injectionSearch := fun _ => false, langdetectVote := fun _ => none }
          (mkPipelineContext "kontol dan anjing itu ada" none none "id") 0).1.suggested_action
        = some "Please provide more details about your question." ∨
      (sanitizationProcess
          { injectionSearch := fun _ => false, langdetectVote := fun _ => none }
          (mkPipelineContext "kontol dan anjing itu ada" none none "id") 0).1.suggested_action
        = some "Please shorten your question to be more concise." ∨
      (sanitizationProcess
          { injectionSearch := fun _ => false, langdetectVote := fun _ => none }
          (mkPipelineContext "kontol dan anjing itu ada" none none "id") 0).1.error_code
        = some "LANGUAGE_NOT_SUPPORTED") →
      (sanitizationProcess
          { injectionSearch := fun _ => false, langdetectVote := fun _ => none }
          (mkPipelineContext "kontol dan anjing itu ada" none none "id") 0).2.detected_language
        = none)) :=
  ⟨by decide,
    sanitization_rejection_frame
      { injectionSearch := fun _ => false, langdetectVote := fun _ => none }
      "kontol dan anjing itu ada" none none "id" 0 (by decide)⟩

end HalaAI
